import Mathlib

/-!
Verification of the `rust_sensors` repository (`src/sensor-program/src/main.rs`).

The development shallowly embeds the program: the MS5611 compensation engine is
modelled as integer arithmetic over `Int` with explicit two's-complement
wraparound at 64 bits (Rust `i64` semantics, `/` being truncating division,
embedded as `Int.tdiv`); the I2C bus is an abstract state machine with
fallible `write`/`read` operations (Rust `Result` embedded as `Option`); the
DS18B20 text report parser operates on `List Char`, with temperature values
carried exactly as `Rat`; one iteration of the polling loop is a pure function
from the bus, the two thermometer report files and the current log to the new
log.
-/

namespace RustSensors

/-- Two's-complement wraparound to the signed 64-bit range, modelling Rust
`i64` arithmetic (release-mode wrapping semantics). -/
def i64wrap (x : Int) : Int := (x + 2^63) % 2^64 - 2^63

/-- The statement `let d_t = d2 as i64 - (c5 as i64 * 256);` of
`read_and_calculate_ms5611`, with each `i64` operation wrapped. -/
def d_t (d2 c5 : Int) : Int := i64wrap (d2 - i64wrap (c5 * 256))

/-- The statement `let temp = 2000 + (d_t * c6 as i64) / (1 << 23);`. -/
def temp (d2 c5 c6 : Int) : Int :=
  i64wrap (2000 + (i64wrap (d_t d2 c5 * c6)).tdiv (2^23))

/-- The statement `let off = (c2 as i64) * (1 << 16) + ((c4 as i64) * d_t) / (1 << 7);`. -/
def off (d2 c2 c4 c5 : Int) : Int :=
  i64wrap (i64wrap (c2 * 2^16) + (i64wrap (c4 * d_t d2 c5)).tdiv (2^7))

/-- The statement `let sens = (c1 as i64) * (1 << 15) + ((c3 as i64) * d_t) / (1 << 8);`. -/
def sens (d2 c1 c3 c5 : Int) : Int :=
  i64wrap (i64wrap (c1 * 2^15) + (i64wrap (c3 * d_t d2 c5)).tdiv (2^8))

/-- The statement `let press = (((d1 as i64 * sens) / (1 << 21)) - off) / (1 << 15);`. -/
def press (d1 d2 c1 c2 c3 c4 c5 : Int) : Int :=
  (i64wrap ((i64wrap (d1 * sens d2 c1 c3 c5)).tdiv (2^21) - off d2 c2 c4 c5)).tdiv (2^15)

/-- Exact-integer dT from the specification formula `dT = D2 - C5*256`. -/
def dT_spec (d2 c5 : Int) : Int := d2 - c5 * 256

/-- Exact-integer TEMP from the specification formula
`TEMP = 2000 + (dT*C6)/2^23`, with truncating division. -/
def TEMP_spec (d2 c5 c6 : Int) : Int := 2000 + (dT_spec d2 c5 * c6).tdiv (2^23)

/-- Exact-integer OFF from the specification formula `OFF = C2*2^16 + (C4*dT)/2^7`. -/
def OFF_spec (d2 c2 c4 c5 : Int) : Int := c2 * 2^16 + (c4 * dT_spec d2 c5).tdiv (2^7)

/-- Exact-integer SENS from the specification formula `SENS = C1*2^15 + (C3*dT)/2^8`. -/
def SENS_spec (d2 c1 c3 c5 : Int) : Int := c1 * 2^15 + (c3 * dT_spec d2 c5).tdiv (2^8)

/-- Exact-integer P from the specification formula `P = ((D1*SENS)/2^21 - OFF)/2^15`. -/
def P_spec (d1 d2 c1 c2 c3 c4 c5 : Int) : Int :=
  ((d1 * SENS_spec d2 c1 c3 c5).tdiv (2^21) - OFF_spec d2 c2 c4 c5).tdiv (2^15)

/-- The struct `MS5611Data` of the source: raw conversions plus the two
compensated `f64` values. -/
structure MS5611Data where
  d1 : Nat
  d2 : Nat
  temperature : Float
  pressure : Float

/-- Construction of the `MS5611Data` value returned by
`read_and_calculate_ms5611`: the compensated integers scaled by `100.0` into
`f64` (`temp as f64 / 100.0`, `press as f64 / 100.0`). -/
def ms5611_data_of (d1 d2 c1 c2 c3 c4 c5 c6 : Nat) : MS5611Data :=
  { d1 := d1, d2 := d2,
    temperature := Float.ofInt (temp d2 c5 c6) / 100.0,
    pressure := Float.ofInt (press d1 d2 c1 c2 c3 c4 c5) / 100.0 }

/-- Abstract model of the `rppal::i2c::I2c` handle used by the program: a bus
state type `σ`, a fallible `init` modelling `I2c::with_bus(1)` followed by
`set_slave_address(0x77)`, and fallible `write`/`read` transactions.  The
settling delays (`thread::sleep`) have no observable effect in this model. -/
structure I2c (σ : Type) where
  init : Option σ
  write : σ → List Nat → Option σ
  read : σ → Nat → Option (List Nat × σ)

/-- Big-endian combination `((buf[0] as u16) << 8) | buf[1] as u16` of the
2-byte calibration read buffer. -/
def combine2 (buf : List Nat) : Nat := (buf.getD 0 0) <<< 8 ||| buf.getD 1 0

/-- Big-endian combination
`((buf[0] as u32) << 16) | ((buf[1] as u32) << 8) | buf[2] as u32` of the
3-byte conversion read buffer. -/
def combine3 (buf : List Nat) : Nat :=
  (buf.getD 0 0) <<< 16 ||| (buf.getD 1 0) <<< 8 ||| buf.getD 2 0

/-- The function `read_calibration_word`: write the single address byte, read
2 bytes back, combine them big-endian into an unsigned 16-bit word. -/
def read_calibration_word {σ : Type} (B : I2c σ) (s : σ) (addr : Nat) :
    Option (Nat × σ) :=
  (B.write s [addr]).bind fun s1 =>
  (B.read s1 2).bind fun pr =>
  some (combine2 pr.1, pr.2)

/-- The function `read_and_calculate_ms5611`: open the bus, run the two
conversion sequences (command `0x48` for D1, `0x58` for D2, each followed by
the read-result command `0x00` and a 3-byte read), read the six calibration
words at `0xA2..0xAC`, and apply the compensation formula. -/
def read_and_calculate_ms5611 {σ : Type} (B : I2c σ) : Option MS5611Data :=
  B.init.bind fun s0 =>
  (B.write s0 [0x48]).bind fun s1 =>
  (B.write s1 [0x00]).bind fun s2 =>
  (B.read s2 3).bind fun p1 =>
  (B.write p1.2 [0x58]).bind fun s4 =>
  (B.write s4 [0x00]).bind fun s5 =>
  (B.read s5 3).bind fun p2 =>
  (read_calibration_word B p2.2 0xA2).bind fun w1 =>
  (read_calibration_word B w1.2 0xA4).bind fun w2 =>
  (read_calibration_word B w2.2 0xA6).bind fun w3 =>
  (read_calibration_word B w3.2 0xA8).bind fun w4 =>
  (read_calibration_word B w4.2 0xAA).bind fun w5 =>
  (read_calibration_word B w5.2 0xAC).bind fun w6 =>
  some (ms5611_data_of (combine3 p1.1) (combine3 p2.1)
    w1.1 w2.1 w3.1 w4.1 w5.1 w6.1)

/-- Decision of pattern occurrence at the head of a character list, matching
Rust substring matching at one position. -/
def isPrefixList : List Char → List Char → Bool
  | [], _ => true
  | _ :: _, [] => false
  | a :: ps, b :: ls => a == b && isPrefixList ps ls

/-- Index of the first occurrence of pattern `p` in `h`, modelling
`str::find` (character-index form; all patterns used by the program are
ASCII, so character and byte indices coincide on its inputs). -/
def findSub : List Char → List Char → Option Nat
  | [], p => if p.isEmpty then some 0 else none
  | c :: t, p =>
    if isPrefixList p (c :: t) then some 0 else (findSub t p).map (· + 1)

/-- Decision of `str::contains`, modelling `content.contains("YES")`. -/
def containsSub (h p : List Char) : Bool := (findSub h p).isSome

/-- Whitespace test used by `str::trim` (restricted to the ASCII whitespace
characters that occur in `w1_slave` reports). -/
def isWs (c : Char) : Bool := c == ' ' || c == '\n' || c == '\t' || c == '\r'

/-- The `.trim()` call: whitespace stripped from both ends. -/
def trimList (l : List Char) : List Char :=
  ((l.dropWhile isWs).reverse.dropWhile isWs).reverse

/-- Numeric value of a digit string, most significant digit first. -/
def digitsVal (l : List Char) : Nat :=
  l.foldl (fun a c => a * 10 + (c.toNat - 48)) 0

/-- Value of a fractional digit string (digits after the decimal point). -/
def fracVal (l : List Char) : Rat := (digitsVal l : Rat) / (10 : Rat) ^ l.length

/-- Modelled from the spec and the Rust standard library contract of
`str::parse::<f32>` (library code, not part of this repository): an optional
sign followed by decimal digits with an optional fractional part; the value is
carried exactly as a rational.  The exponent / `inf` / `NaN` forms of the full
`f32` grammar never arise from `w1_slave` reports and are outside the model. -/
def parseF32 (l : List Char) : Option Rat :=
  let sm : Rat × List Char :=
    match l with
    | '-' :: r => (-1, r)
    | '+' :: r => (1, r)
    | _ => (1, l)
  let ip := sm.2.takeWhile (fun c => c != '.')
  match sm.2.dropWhile (fun c => c != '.') with
  | [] =>
    if !ip.isEmpty && ip.all Char.isDigit then
      some (sm.1 * (digitsVal ip : Rat))
    else none
  | _ :: fr =>
    if (!ip.isEmpty || !fr.isEmpty) && ip.all Char.isDigit && fr.all Char.isDigit then
      some (sm.1 * ((digitsVal ip : Rat) + fracVal fr))
    else none

/-- The function `read_temperature_ds18b20`, abstracted over the contents of
`/sys/bus/w1/devices/{id}/w1_slave` (`none` models a failing `File::open` or
read): require the `"YES"` CRC marker, locate `"t="`, parse the trimmed
suffix as milli-degrees and divide by 1000. -/
def read_temperature_ds18b20 (file : Option (List Char)) : Except String Rat :=
  match file with
  | none => .error "file open"
  | some content =>
    if containsSub content ['Y', 'E', 'S'] then
      match findSub content ['t', '='] with
      | none => .error "Valore t= non trovato"
      | some p =>
        match parseF32 (trimList (content.drop (p + 2))) with
        | none => .error "parse"
        | some v => .ok (v / 1000)
    else .error "Errore nella lettura del DS18B20"

/-- The struct `SensorData` logged once per successful cycle. -/
structure SensorData where
  ms5611 : MS5611Data
  ds18b20_1 : Rat
  ds18b20_2 : Rat

/-- One iteration of the `main` loop, as a transformer of the append-only
log: if `read_and_calculate_ms5611` fails the cycle is skipped and the log is
unchanged; otherwise each failing thermometer read is substituted with `0.0`
and the assembled `SensorData` record is appended. -/
def mainCycle {σ : Type} (B : I2c σ) (w1 w2 : Option (List Char))
    (log : List SensorData) : List SensorData :=
  match read_and_calculate_ms5611 B with
  | none => log
  | some md =>
    let t1 := match read_temperature_ds18b20 w1 with
      | .ok t => t
      | .error _ => 0
    let t2 := match read_temperature_ds18b20 w2 with
      | .ok t => t
      | .error _ => 0
    log ++ [{ ms5611 := md, ds18b20_1 := t1, ds18b20_2 := t2 }]

/-- Wraparound is the identity on values inside the signed 64-bit range. -/
theorem i64wrap_id {x : Int} (h1 : -(2^63) ≤ x) (h2 : x < 2^63) : i64wrap x = x := by
  have h3 : (0 : Int) ≤ x + 2^63 := by omega
  have h4 : x + 2^63 < 2^64 := by omega
  unfold i64wrap
  rw [Int.emod_eq_of_lt h3 h4]
  omega

/-- Wraparound is the identity below an absolute-value bound under `2^63`. -/
theorem i64wrap_id_of_abs {x B : Int} (hB : B ≤ 2^63 - 1) (h : |x| ≤ B) :
    i64wrap x = x := by
  rcases abs_le.mp h with ⟨h1, h2⟩
  exact i64wrap_id (by linarith) (by linarith)

/-- Absolute-value bound for a product from bounds on the factors. -/
theorem abs_mul_le {x c A C : Int} (hx : |x| ≤ A) (hc : |c| ≤ C) :
    |x * c| ≤ A * C := by
  rw [abs_mul]
  exact mul_le_mul hx hc (abs_nonneg _) (le_trans (abs_nonneg _) hx)

/-- Absolute-value bound for truncating division: if `|x| ≤ B * q` then the
truncated quotient of `x` by `q` is bounded by `B`. -/
theorem tdiv_le_bound {x B q : Int} (hB : 0 ≤ B) (h : |x| ≤ B * q) :
    |x.tdiv q| ≤ B := by
  have h1 : x.natAbs ≤ (B * q).natAbs := by
    have h2 : |x| ≤ |B * q| := le_trans h (le_abs_self _)
    rw [Int.abs_eq_natAbs, Int.abs_eq_natAbs] at h2
    exact_mod_cast h2
  have h3 : x.natAbs / q.natAbs ≤ B.natAbs := by
    apply Nat.div_le_of_le_mul
    rwa [Int.natAbs_mul, Nat.mul_comm] at h1
  rw [Int.abs_eq_natAbs, Int.natAbs_tdiv]
  calc ((x.natAbs / q.natAbs : Nat) : Int) ≤ (B.natAbs : Int) := by exact_mod_cast h3
    _ = |B| := (Int.abs_eq_natAbs B).symm
    _ = B := abs_of_nonneg hB

/-- Main arithmetic lemma: for in-range inputs (24-bit raw conversions,
16-bit calibration words) the wrapped `i64` computation of
`read_and_calculate_ms5611` coincides with the exact integer formula of the
specification, and every intermediate stays well inside the signed 64-bit
range. -/
theorem calc_eq_spec (d1 d2 c1 c2 c3 c4 c5 c6 : Int)
    (hd1l : 0 ≤ d1) (hd1 : d1 < 2^24) (hd2l : 0 ≤ d2) (hd2 : d2 < 2^24)
    (hc1l : 0 ≤ c1) (hc1 : c1 < 2^16) (hc2l : 0 ≤ c2) (hc2 : c2 < 2^16)
    (hc3l : 0 ≤ c3) (hc3 : c3 < 2^16) (hc4l : 0 ≤ c4) (hc4 : c4 < 2^16)
    (hc5l : 0 ≤ c5) (hc5 : c5 < 2^16) (hc6l : 0 ≤ c6) (hc6 : c6 < 2^16) :
    d_t d2 c5 = dT_spec d2 c5 ∧
    temp d2 c5 c6 = TEMP_spec d2 c5 c6 ∧
    off d2 c2 c4 c5 = OFF_spec d2 c2 c4 c5 ∧
    sens d2 c1 c3 c5 = SENS_spec d2 c1 c3 c5 ∧
    press d1 d2 c1 c2 c3 c4 c5 = P_spec d1 d2 c1 c2 c3 c4 c5 ∧
    |dT_spec d2 c5| ≤ 2^24 ∧ |dT_spec d2 c5 * c6| ≤ 2^40 ∧
    |TEMP_spec d2 c5 c6| ≤ 2^18 ∧ |OFF_spec d2 c2 c4 c5| ≤ 2^34 ∧
    |SENS_spec d2 c1 c3 c5| ≤ 2^33 ∧ |d1 * SENS_spec d2 c1 c3 c5| ≤ 2^57 ∧
    |P_spec d1 d2 c1 c2 c3 c4 c5| ≤ 2^37 := by
  have hdT : d_t d2 c5 = dT_spec d2 c5 := by
    unfold d_t dT_spec
    rw [i64wrap_id (x := c5 * 256) (by omega) (by omega),
      i64wrap_id (by omega) (by omega)]
  have hdTa : |dT_spec d2 c5| ≤ 2^24 := by
    unfold dT_spec; rw [abs_le]; omega
  have hc6a : |c6| ≤ 2^16 := by rw [abs_le]; omega
  have hprod1 : |dT_spec d2 c5 * c6| ≤ 2^40 := by
    calc |dT_spec d2 c5 * c6| ≤ 2^24 * 2^16 := abs_mul_le hdTa hc6a
      _ = 2^40 := by norm_num
  have hq1 : |(dT_spec d2 c5 * c6).tdiv (2^23)| ≤ 2^17 := by
    refine tdiv_le_bound (by norm_num) ?_
    calc |dT_spec d2 c5 * c6| ≤ 2^40 := hprod1
      _ = 2^17 * 2^23 := by norm_num
  have hTEMPa : |TEMP_spec d2 c5 c6| ≤ 2^18 := by
    unfold TEMP_spec
    rcases abs_le.mp hq1 with ⟨ha, hb⟩
    rw [abs_le]; constructor <;> linarith
  have htemp : temp d2 c5 c6 = TEMP_spec d2 c5 c6 := by
    unfold temp
    rw [hdT, i64wrap_id_of_abs (by norm_num) hprod1]
    rw [show (2000 + (dT_spec d2 c5 * c6).tdiv (2^23)) = TEMP_spec d2 c5 c6 from rfl]
    exact i64wrap_id_of_abs (by norm_num) hTEMPa
  -- OFF
  have hc4a : |c4| ≤ 2^16 := by rw [abs_le]; omega
  have hprod4 : |c4 * dT_spec d2 c5| ≤ 2^40 := by
    calc |c4 * dT_spec d2 c5| ≤ 2^16 * 2^24 := abs_mul_le hc4a hdTa
      _ = 2^40 := by norm_num
  have hq4 : |(c4 * dT_spec d2 c5).tdiv (2^7)| ≤ 2^33 := by
    refine tdiv_le_bound (by norm_num) ?_
    calc |c4 * dT_spec d2 c5| ≤ 2^40 := hprod4
      _ = 2^33 * 2^7 := by norm_num
  have hc2m : |c2 * 2^16| ≤ 2^32 := by rw [abs_le]; omega
  have hOFFa : |OFF_spec d2 c2 c4 c5| ≤ 2^34 := by
    unfold OFF_spec
    rcases abs_le.mp hq4 with ⟨ha, hb⟩
    rcases abs_le.mp hc2m with ⟨hc, hd⟩
    rw [abs_le]; constructor <;> linarith
  have hoff : off d2 c2 c4 c5 = OFF_spec d2 c2 c4 c5 := by
    unfold off
    rw [hdT, i64wrap_id_of_abs (by norm_num) hc2m,
      i64wrap_id_of_abs (by norm_num) hprod4]
    rw [show (c2 * 2^16 + (c4 * dT_spec d2 c5).tdiv (2^7)) = OFF_spec d2 c2 c4 c5 from rfl]
    exact i64wrap_id_of_abs (by norm_num) hOFFa
  -- SENS
  have hc3a : |c3| ≤ 2^16 := by rw [abs_le]; omega
  have hprod3 : |c3 * dT_spec d2 c5| ≤ 2^40 := by
    calc |c3 * dT_spec d2 c5| ≤ 2^16 * 2^24 := abs_mul_le hc3a hdTa
      _ = 2^40 := by norm_num
  have hq3 : |(c3 * dT_spec d2 c5).tdiv (2^8)| ≤ 2^32 := by
    refine tdiv_le_bound (by norm_num) ?_
    calc |c3 * dT_spec d2 c5| ≤ 2^40 := hprod3
      _ = 2^32 * 2^8 := by norm_num
  have hc1m : |c1 * 2^15| ≤ 2^31 := by rw [abs_le]; omega
  have hSENSa : |SENS_spec d2 c1 c3 c5| ≤ 2^33 := by
    unfold SENS_spec
    rcases abs_le.mp hq3 with ⟨ha, hb⟩
    rcases abs_le.mp hc1m with ⟨hc, hd⟩
    rw [abs_le]; constructor <;> linarith
  have hsens : sens d2 c1 c3 c5 = SENS_spec d2 c1 c3 c5 := by
    unfold sens
    rw [hdT, i64wrap_id_of_abs (by norm_num) hc1m,
      i64wrap_id_of_abs (by norm_num) hprod3]
    rw [show (c1 * 2^15 + (c3 * dT_spec d2 c5).tdiv (2^8)) = SENS_spec d2 c1 c3 c5 from rfl]
    exact i64wrap_id_of_abs (by norm_num) hSENSa
  -- P
  have hd1a : |d1| ≤ 2^24 := by rw [abs_le]; omega
  have hprodP : |d1 * SENS_spec d2 c1 c3 c5| ≤ 2^57 := by
    calc |d1 * SENS_spec d2 c1 c3 c5| ≤ 2^24 * 2^33 := abs_mul_le hd1a hSENSa
      _ = 2^57 := by norm_num
  have hqP : |(d1 * SENS_spec d2 c1 c3 c5).tdiv (2^21)| ≤ 2^36 := by
    refine tdiv_le_bound (by norm_num) ?_
    calc |d1 * SENS_spec d2 c1 c3 c5| ≤ 2^57 := hprodP
      _ = 2^36 * 2^21 := by norm_num
  have hsub : |(d1 * SENS_spec d2 c1 c3 c5).tdiv (2^21) - OFF_spec d2 c2 c4 c5| ≤ 2^37 := by
    rcases abs_le.mp hqP with ⟨ha, hb⟩
    rcases abs_le.mp hOFFa with ⟨hc, hd⟩
    rw [abs_le]; constructor <;> linarith
  have hPa : |P_spec d1 d2 c1 c2 c3 c4 c5| ≤ 2^37 := by
    unfold P_spec
    refine tdiv_le_bound (by norm_num) ?_
    calc |(d1 * SENS_spec d2 c1 c3 c5).tdiv (2^21) - OFF_spec d2 c2 c4 c5| ≤ 2^37 := hsub
      _ ≤ 2^37 * 2^15 := by norm_num
  have hpress : press d1 d2 c1 c2 c3 c4 c5 = P_spec d1 d2 c1 c2 c3 c4 c5 := by
    unfold press P_spec
    rw [hsens, i64wrap_id_of_abs (by norm_num) hprodP, hoff,
      i64wrap_id_of_abs (by norm_num) hsub]
  exact ⟨hdT, htemp, hoff, hsens, hpress, hdTa, hprod1, hTEMPa, hOFFa, hSENSa,
    hprodP, hPa⟩

/-- Bitwise-or of a left-shifted value with a small value is addition. -/
theorem shiftLeft_lor_eq_add (a b n : Nat) (hb : b < 2^n) :
    a <<< n ||| b = a * 2^n + b := by
  rw [Nat.shiftLeft_eq, Nat.mul_comm a (2^n), ← Nat.mul_add_lt_is_or hb a,
    Nat.mul_comm (2^n) a]

/-- The 2-byte big-endian combination law for byte values. -/
theorem combine2_eq (b0 b1 : Nat) (h1 : b1 < 256) :
    combine2 [b0, b1] = b0 * 256 + b1 := by
  show b0 <<< 8 ||| b1 = b0 * 256 + b1
  have h := shiftLeft_lor_eq_add b0 b1 8 (by omega)
  omega

/-- The 3-byte big-endian combination law for byte values, with the 24-bit
range bound. -/
theorem combine3_eq (b0 b1 b2 : Nat) (h0 : b0 < 256) (h1 : b1 < 256)
    (h2 : b2 < 256) :
    combine3 [b0, b1, b2] = b0 * 65536 + b1 * 256 + b2 ∧
    b0 * 65536 + b1 * 256 + b2 < 2^24 := by
  have e1 : b0 <<< 16 ||| b1 <<< 8 = b0 * 2^16 + b1 * 2^8 := by
    rw [Nat.shiftLeft_eq b1 8]
    exact shiftLeft_lor_eq_add b0 (b1 * 2^8) 16 (by omega)
  have e2 : combine3 [b0, b1, b2] = (b0 * 256 + b1) * 2^8 + b2 := by
    show (b0 <<< 16 ||| b1 <<< 8) ||| b2 = _
    rw [e1, show b0 * 2^16 + b1 * 2^8 = (b0 * 256 + b1) <<< 8 from by
      rw [Nat.shiftLeft_eq]; ring]
    exact shiftLeft_lor_eq_add _ _ 8 (by omega)
  constructor
  · omega
  · omega

/-- C1: for every CalibrationSet C1..C6 (unsigned 16-bit) and RawConversion
D1, D2 (unsigned 24-bit), read_and_calculate_ms5611 computes, in signed
64-bit arithmetic with truncating division, dT = D2 - C5*256,
TEMP = 2000 + dT*C6/2^23, OFF = C2*2^16 + C4*dT/2^7,
SENS = C1*2^15 + C3*dT/2^8, P = ((D1*SENS)/2^21 - OFF)/2^15, and the
returned MS5611Data carries temperature = TEMP/100.0 and
pressure = P/100.0 as 64-bit floats. -/
theorem compensation_formula (d1 d2 c1 c2 c3 c4 c5 c6 : Nat)
    (hd1 : d1 < 2^24) (hd2 : d2 < 2^24)
    (hc1 : c1 < 2^16) (hc2 : c2 < 2^16) (hc3 : c3 < 2^16)
    (hc4 : c4 < 2^16) (hc5 : c5 < 2^16) (hc6 : c6 < 2^16) :
    d_t d2 c5 = (d2 : Int) - c5 * 256 ∧
    temp d2 c5 c6 = 2000 + (((d2 : Int) - c5 * 256) * c6).tdiv (2^23) ∧
    off d2 c2 c4 c5 =
      (c2 : Int) * 2^16 + ((c4 : Int) * ((d2 : Int) - c5 * 256)).tdiv (2^7) ∧
    sens d2 c1 c3 c5 =
      (c1 : Int) * 2^15 + ((c3 : Int) * ((d2 : Int) - c5 * 256)).tdiv (2^8) ∧
    press d1 d2 c1 c2 c3 c4 c5 =
      (((d1 : Int) * sens d2 c1 c3 c5).tdiv (2^21) - off d2 c2 c4 c5).tdiv (2^15) ∧
    (ms5611_data_of d1 d2 c1 c2 c3 c4 c5 c6).temperature =
      Float.ofInt (temp d2 c5 c6) / 100.0 ∧
    (ms5611_data_of d1 d2 c1 c2 c3 c4 c5 c6).pressure =
      Float.ofInt (press d1 d2 c1 c2 c3 c4 c5) / 100.0 := by
  obtain ⟨hdT, htemp, hoff, hsens, hpress, -⟩ :=
    calc_eq_spec (d1 : Int) (d2 : Int) (c1 : Int) (c2 : Int) (c3 : Int)
      (c4 : Int) (c5 : Int) (c6 : Int)
      (Int.natCast_nonneg d1) (by exact_mod_cast hd1)
      (Int.natCast_nonneg d2) (by exact_mod_cast hd2)
      (Int.natCast_nonneg c1) (by exact_mod_cast hc1)
      (Int.natCast_nonneg c2) (by exact_mod_cast hc2)
      (Int.natCast_nonneg c3) (by exact_mod_cast hc3)
      (Int.natCast_nonneg c4) (by exact_mod_cast hc4)
      (Int.natCast_nonneg c5) (by exact_mod_cast hc5)
      (Int.natCast_nonneg c6) (by exact_mod_cast hc6)
  refine ⟨hdT, ?_, ?_, ?_, ?_, rfl, rfl⟩
  · rw [htemp]; rfl
  · rw [hoff]; rfl
  · rw [hsens]; rfl
  · rw [hpress, hsens, hoff]; rfl

/-- Witness for C1 at a concrete in-range input. -/
theorem compensation_formula_witness :
    temp 8500000 33000 28000 =
      2000 + (((8500000 : Int) - 33000 * 256) * 28000).tdiv (2^23) :=
  (compensation_formula 6000000 8500000 30000 31000 32000 33500 33000 28000
    (by norm_num) (by norm_num) (by norm_num) (by norm_num) (by norm_num)
    (by norm_num) (by norm_num) (by norm_num)).2.1

/-- C2: whenever D2 < C5*256, dT is negative and the i64 computation of dT,
TEMP, OFF, SENS and P is sign-correct, matching the exact integer results
with no overflow or wraparound. -/
theorem negative_dT_exact (d1 d2 c1 c2 c3 c4 c5 c6 : Nat)
    (hd1 : d1 < 2^24) (hd2 : d2 < 2^24)
    (hc1 : c1 < 2^16) (hc2 : c2 < 2^16) (hc3 : c3 < 2^16)
    (hc4 : c4 < 2^16) (hc5 : c5 < 2^16) (hc6 : c6 < 2^16)
    (hneg : (d2 : Int) < (c5 : Int) * 256) :
    d_t d2 c5 < 0 ∧
    d_t d2 c5 = dT_spec d2 c5 ∧
    temp d2 c5 c6 = TEMP_spec d2 c5 c6 ∧
    off d2 c2 c4 c5 = OFF_spec d2 c2 c4 c5 ∧
    sens d2 c1 c3 c5 = SENS_spec d2 c1 c3 c5 ∧
    press d1 d2 c1 c2 c3 c4 c5 = P_spec d1 d2 c1 c2 c3 c4 c5 := by
  obtain ⟨hdT, htemp, hoff, hsens, hpress, -⟩ :=
    calc_eq_spec (d1 : Int) (d2 : Int) (c1 : Int) (c2 : Int) (c3 : Int)
      (c4 : Int) (c5 : Int) (c6 : Int)
      (Int.natCast_nonneg d1) (by exact_mod_cast hd1)
      (Int.natCast_nonneg d2) (by exact_mod_cast hd2)
      (Int.natCast_nonneg c1) (by exact_mod_cast hc1)
      (Int.natCast_nonneg c2) (by exact_mod_cast hc2)
      (Int.natCast_nonneg c3) (by exact_mod_cast hc3)
      (Int.natCast_nonneg c4) (by exact_mod_cast hc4)
      (Int.natCast_nonneg c5) (by exact_mod_cast hc5)
      (Int.natCast_nonneg c6) (by exact_mod_cast hc6)
  refine ⟨?_, hdT, htemp, hoff, hsens, hpress⟩
  rw [hdT]; unfold dT_spec; omega

/-- Witness for C2 at a concrete input with dT = -1000. -/
theorem negative_dT_exact_witness :
    d_t 255000 1000 = -1000 ∧
    temp 255000 1000 28000 = TEMP_spec 255000 1000 28000 :=
  ⟨by decide,
   (negative_dT_exact 2000000 255000 40000 36000 23000 23200 1000 28000
     (by norm_num) (by norm_num) (by norm_num) (by norm_num) (by norm_num)
     (by norm_num) (by norm_num) (by norm_num) (by norm_num)).2.2.1⟩

/-- C3: on the MS5611 datasheet reference vector the engine reproduces the
published outputs, TEMP = 2007 centi-degrees (20.07 degrees C) and
P = 100009 centi-hPa (1000.09 hPa). -/
theorem datasheet_vector :
    temp 8569150 33464 28312 = 2007 ∧
    press 9085466 8569150 40127 36924 23317 23282 33464 = 100009 ∧
    (ms5611_data_of 9085466 8569150 40127 36924 23317 23282 33464
      28312).temperature = Float.ofInt 2007 / 100.0 ∧
    (ms5611_data_of 9085466 8569150 40127 36924 23317 23282 33464
      28312).pressure = Float.ofInt 100009 / 100.0 := by
  refine ⟨by decide, by decide, ?_, ?_⟩
  · show Float.ofInt (temp 8569150 33464 28312) / 100.0 = _
    rw [show temp 8569150 33464 28312 = 2007 from by decide]
  · show Float.ofInt (press 9085466 8569150 40127 36924 23317 23282 33464)
      / 100.0 = _
    rw [show press 9085466 8569150 40127 36924 23317 23282 33464 = 100009 from
      by decide]

/-- C9: for all in-range inputs every intermediate value of the compensation
fits in a signed 64-bit integer, the largest magnitude |D1*SENS| staying
below 2^60, so the i64 arithmetic never overflows: the wrapped computation
equals the exact one. -/
theorem intermediates_fit_i64 (d1 d2 c1 c2 c3 c4 c5 c6 : Nat)
    (hd1 : d1 < 2^24) (hd2 : d2 < 2^24)
    (hc1 : c1 < 2^16) (hc2 : c2 < 2^16) (hc3 : c3 < 2^16)
    (hc4 : c4 < 2^16) (hc5 : c5 < 2^16) (hc6 : c6 < 2^16) :
    |dT_spec d2 c5| < 2^63 ∧ |dT_spec d2 c5 * (c6 : Int)| < 2^63 ∧
    |TEMP_spec d2 c5 c6| < 2^63 ∧ |OFF_spec d2 c2 c4 c5| < 2^63 ∧
    |SENS_spec d2 c1 c3 c5| < 2^63 ∧
    |(d1 : Int) * SENS_spec d2 c1 c3 c5| < 2^60 ∧
    |P_spec d1 d2 c1 c2 c3 c4 c5| < 2^63 ∧
    temp d2 c5 c6 = TEMP_spec d2 c5 c6 ∧
    press d1 d2 c1 c2 c3 c4 c5 = P_spec d1 d2 c1 c2 c3 c4 c5 := by
  obtain ⟨-, htemp, -, -, hpress, hdTa, hprod1, hTEMPa, hOFFa, hSENSa, hprodP,
    hPa⟩ :=
    calc_eq_spec (d1 : Int) (d2 : Int) (c1 : Int) (c2 : Int) (c3 : Int)
      (c4 : Int) (c5 : Int) (c6 : Int)
      (Int.natCast_nonneg d1) (by exact_mod_cast hd1)
      (Int.natCast_nonneg d2) (by exact_mod_cast hd2)
      (Int.natCast_nonneg c1) (by exact_mod_cast hc1)
      (Int.natCast_nonneg c2) (by exact_mod_cast hc2)
      (Int.natCast_nonneg c3) (by exact_mod_cast hc3)
      (Int.natCast_nonneg c4) (by exact_mod_cast hc4)
      (Int.natCast_nonneg c5) (by exact_mod_cast hc5)
      (Int.natCast_nonneg c6) (by exact_mod_cast hc6)
  exact ⟨lt_of_le_of_lt hdTa (by norm_num), lt_of_le_of_lt hprod1 (by norm_num),
    lt_of_le_of_lt hTEMPa (by norm_num), lt_of_le_of_lt hOFFa (by norm_num),
    lt_of_le_of_lt hSENSa (by norm_num), lt_of_le_of_lt hprodP (by norm_num),
    lt_of_le_of_lt hPa (by norm_num), htemp, hpress⟩

/-- Witness for C9 at a concrete in-range input. -/
theorem intermediates_fit_i64_witness :
    |(9000000 : Int) * SENS_spec 8000000 45000 26000 34000| < 2^60 :=
  (intermediates_fit_i64 9000000 8000000 45000 39000 26000 27000 34000 29000
    (by norm_num) (by norm_num) (by norm_num) (by norm_num) (by norm_num)
    (by norm_num) (by norm_num) (by norm_num)).2.2.2.2.2.1

/-- C7: read_calibration_word combines any pair of response bytes big-endian
into the unsigned 16-bit word b0*256 + b1, regardless of which calibration
address was written. -/
theorem calibration_word_big_endian {σ : Type} (B : I2c σ) (s s1 s2 : σ)
    (addr b0 b1 : Nat) (hb0 : b0 < 256) (hb1 : b1 < 256)
    (hw : B.write s [addr] = some s1)
    (hr : B.read s1 2 = some ([b0, b1], s2)) :
    read_calibration_word B s addr = some (b0 * 256 + b1, s2) ∧
    b0 * 256 + b1 < 2^16 := by
  refine ⟨?_, by omega⟩
  unfold read_calibration_word
  rw [hw, Option.some_bind, hr, Option.some_bind]
  show some (combine2 [b0, b1], s2) = some (b0 * 256 + b1, s2)
  rw [combine2_eq b0 b1 hb1]

/-- A scripted bus whose reads always answer the bytes 0x12 0x34. -/
def busPair : I2c Nat :=
  { init := some 0,
    write := fun s _ => some (s + 1),
    read := fun s _ => some ([0x12, 0x34], s + 1) }

/-- Witness for C7: the bytes [0x12, 0x34] yield the word 0x1234. -/
theorem calibration_word_big_endian_witness :
    read_calibration_word busPair 0 0xA2 = some (0x1234, 2) ∧
    0x1234 < 2^16 :=
  calibration_word_big_endian busPair 0 1 2 0xA2 0x12 0x34 (by norm_num)
    (by norm_num) rfl rfl

/-- C8: each conversion sequence combines its 3 response bytes big-endian
into b0*65536 + b1*256 + b2 < 2^24, both for D1 (after command 0x48) and
for D2 (after command 0x58). -/
theorem conversion_big_endian {σ : Type} (B : I2c σ) (s0 s1 s2 s3 s4 s5 s6 : σ)
    (b0 b1 b2 e0 e1 e2 : Nat)
    (hb0 : b0 < 256) (hb1 : b1 < 256) (hb2 : b2 < 256)
    (he0 : e0 < 256) (he1 : e1 < 256) (he2 : e2 < 256)
    (h0 : B.init = some s0)
    (h1 : B.write s0 [0x48] = some s1) (h2 : B.write s1 [0x00] = some s2)
    (h3 : B.read s2 3 = some ([b0, b1, b2], s3))
    (h4 : B.write s3 [0x58] = some s4) (h5 : B.write s4 [0x00] = some s5)
    (h6 : B.read s5 3 = some ([e0, e1, e2], s6)) :
    ∀ md, read_and_calculate_ms5611 B = some md →
      md.d1 = b0 * 65536 + b1 * 256 + b2 ∧ md.d1 < 2^24 ∧
      md.d2 = e0 * 65536 + e1 * 256 + e2 ∧ md.d2 < 2^24 := by
  intro md hmd
  unfold read_and_calculate_ms5611 at hmd
  rw [h0, Option.some_bind, h1, Option.some_bind, h2, Option.some_bind, h3,
    Option.some_bind] at hmd
  rw [show (([b0, b1, b2], s3) : List Nat × σ).2 = s3 from rfl] at hmd
  rw [h4, Option.some_bind, h5, Option.some_bind, h6, Option.some_bind] at hmd
  rw [show (([e0, e1, e2], s6) : List Nat × σ).2 = s6 from rfl] at hmd
  rw [Option.bind_eq_some] at hmd
  obtain ⟨v1, hv1, hmd⟩ := hmd
  rw [Option.bind_eq_some] at hmd
  obtain ⟨v2, hv2, hmd⟩ := hmd
  rw [Option.bind_eq_some] at hmd
  obtain ⟨v3, hv3, hmd⟩ := hmd
  rw [Option.bind_eq_some] at hmd
  obtain ⟨v4, hv4, hmd⟩ := hmd
  rw [Option.bind_eq_some] at hmd
  obtain ⟨v5, hv5, hmd⟩ := hmd
  rw [Option.bind_eq_some] at hmd
  obtain ⟨v6, hv6, hmd⟩ := hmd
  injection hmd with hmd
  subst hmd
  obtain ⟨hcb, hblt⟩ := combine3_eq b0 b1 b2 hb0 hb1 hb2
  obtain ⟨hce, helt⟩ := combine3_eq e0 e1 e2 he0 he1 he2
  refine ⟨hcb, ?_, hce, ?_⟩
  · show combine3 [b0, b1, b2] < 2^24
    rw [hcb]; exact hblt
  · show combine3 [e0, e1, e2] < 2^24
    rw [hce]; exact helt

/-- A scripted bus on which every transaction succeeds; every read answers
a buffer of 7-bytes. -/
def busOk : I2c Nat :=
  { init := some 0,
    write := fun s _ => some (s + 1),
    read := fun s n => some (List.replicate n 7, s + 1) }

/-- Witness for C8 on the all-success scripted bus. -/
theorem conversion_big_endian_witness :
    (ms5611_data_of 460551 460551 1799 1799 1799 1799 1799 1799).d1 =
      7 * 65536 + 7 * 256 + 7 ∧
    (ms5611_data_of 460551 460551 1799 1799 1799 1799 1799 1799).d1 < 2^24 ∧
    (ms5611_data_of 460551 460551 1799 1799 1799 1799 1799 1799).d2 =
      7 * 65536 + 7 * 256 + 7 ∧
    (ms5611_data_of 460551 460551 1799 1799 1799 1799 1799 1799).d2 < 2^24 :=
  conversion_big_endian busOk 0 1 2 3 4 5 6 7 7 7 7 7 7 (by norm_num)
    (by norm_num) (by norm_num) (by norm_num) (by norm_num) (by norm_num)
    rfl rfl rfl rfl rfl rfl rfl
    (ms5611_data_of 460551 460551 1799 1799 1799 1799 1799 1799) rfl

/-- Success of every bus transaction of one acquisition cycle, in program
order: bus opening, the two conversion sequences, and the six calibration
words. -/
def FullTrace {σ : Type} (B : I2c σ) : Prop :=
  ∃ (s0 s1 s2 : σ) (p1 : List Nat × σ) (s4 s5 : σ) (p2 : List Nat × σ)
    (t1 : σ) (q1 : List Nat × σ) (t2 : σ) (q2 : List Nat × σ)
    (t3 : σ) (q3 : List Nat × σ) (t4 : σ) (q4 : List Nat × σ)
    (t5 : σ) (q5 : List Nat × σ) (t6 : σ) (q6 : List Nat × σ),
    B.init = some s0 ∧
    B.write s0 [0x48] = some s1 ∧ B.write s1 [0x00] = some s2 ∧
    B.read s2 3 = some p1 ∧
    B.write p1.2 [0x58] = some s4 ∧ B.write s4 [0x00] = some s5 ∧
    B.read s5 3 = some p2 ∧
    B.write p2.2 [0xA2] = some t1 ∧ B.read t1 2 = some q1 ∧
    B.write q1.2 [0xA4] = some t2 ∧ B.read t2 2 = some q2 ∧
    B.write q2.2 [0xA6] = some t3 ∧ B.read t3 2 = some q3 ∧
    B.write q3.2 [0xA8] = some t4 ∧ B.read t4 2 = some q4 ∧
    B.write q4.2 [0xAA] = some t5 ∧ B.read t5 2 = some q5 ∧
    B.write q5.2 [0xAC] = some t6 ∧ B.read t6 2 = some q6

/-- Destructuring of a successful calibration-word read into its write and
read transactions. -/
theorem read_calibration_word_some {σ : Type} {B : I2c σ} {s : σ} {addr : Nat}
    {w : Nat × σ} (h : read_calibration_word B s addr = some w) :
    ∃ (t : σ) (q : List Nat × σ), B.write s [addr] = some t ∧
      B.read t 2 = some q ∧ w.2 = q.2 := by
  unfold read_calibration_word at h
  rw [Option.bind_eq_some] at h
  obtain ⟨t, ht, h⟩ := h
  rw [Option.bind_eq_some] at h
  obtain ⟨q, hq, h⟩ := h
  injection h with h
  exact ⟨t, q, ht, hq, by rw [← h]⟩

/-- C4: if any bus-transport operation of a cycle fails,
read_and_calculate_ms5611 returns an error, no record is constructed and no
log line is appended for that cycle; conversely a successful cycle implies
that every one of the cycle's transport operations succeeded (so no partial
or default calibration is ever used). -/
theorem transport_failure_skips_cycle {σ : Type} (B : I2c σ)
    (w1 w2 : Option (List Char)) (log : List SensorData) :
    (read_and_calculate_ms5611 B = none → mainCycle B w1 w2 log = log) ∧
    (∀ md, read_and_calculate_ms5611 B = some md → FullTrace B) := by
  constructor
  · intro h
    unfold mainCycle
    rw [h]
  · intro md hmd
    unfold read_and_calculate_ms5611 at hmd
    rw [Option.bind_eq_some] at hmd
    obtain ⟨s0, h0, hmd⟩ := hmd
    rw [Option.bind_eq_some] at hmd
    obtain ⟨s1, h1, hmd⟩ := hmd
    rw [Option.bind_eq_some] at hmd
    obtain ⟨s2, h2, hmd⟩ := hmd
    rw [Option.bind_eq_some] at hmd
    obtain ⟨p1, h3, hmd⟩ := hmd
    rw [Option.bind_eq_some] at hmd
    obtain ⟨s4, h4, hmd⟩ := hmd
    rw [Option.bind_eq_some] at hmd
    obtain ⟨s5, h5, hmd⟩ := hmd
    rw [Option.bind_eq_some] at hmd
    obtain ⟨p2, h6, hmd⟩ := hmd
    rw [Option.bind_eq_some] at hmd
    obtain ⟨v1, hv1, hmd⟩ := hmd
    rw [Option.bind_eq_some] at hmd
    obtain ⟨v2, hv2, hmd⟩ := hmd
    rw [Option.bind_eq_some] at hmd
    obtain ⟨v3, hv3, hmd⟩ := hmd
    rw [Option.bind_eq_some] at hmd
    obtain ⟨v4, hv4, hmd⟩ := hmd
    rw [Option.bind_eq_some] at hmd
    obtain ⟨v5, hv5, hmd⟩ := hmd
    rw [Option.bind_eq_some] at hmd
    obtain ⟨v6, hv6, -⟩ := hmd
    obtain ⟨t1, q1, ht1, hq1, he1⟩ := read_calibration_word_some hv1
    rw [he1] at hv2
    obtain ⟨t2, q2, ht2, hq2, he2⟩ := read_calibration_word_some hv2
    rw [he2] at hv3
    obtain ⟨t3, q3, ht3, hq3, he3⟩ := read_calibration_word_some hv3
    rw [he3] at hv4
    obtain ⟨t4, q4, ht4, hq4, he4⟩ := read_calibration_word_some hv4
    rw [he4] at hv5
    obtain ⟨t5, q5, ht5, hq5, he5⟩ := read_calibration_word_some hv5
    rw [he5] at hv6
    obtain ⟨t6, q6, ht6, hq6, -⟩ := read_calibration_word_some hv6
    exact ⟨s0, s1, s2, p1, s4, s5, p2, t1, q1, t2, q2, t3, q3, t4, q4, t5, q5,
      t6, q6, h0, h1, h2, h3, h4, h5, h6, ht1, hq1, ht2, hq2, ht3, hq3, ht4,
      hq4, ht5, hq5, ht6, hq6⟩

/-- A bus on which every write and read fails. -/
def busFail : I2c Nat :=
  { init := some 0, write := fun _ _ => none, read := fun _ _ => none }

/-- Witness for C4: on the failing bus the cycle appends nothing. -/
theorem transport_failure_skips_cycle_witness :
    mainCycle busFail none none [] = [] :=
  (transport_failure_skips_cycle busFail none none []).1 rfl

/-- C5: if the pressure acquisition succeeded and exactly one thermometer
read fails, the constructed SensorRecord carries the sentinel 0.0 in the
failed slot and the other thermometer's value unchanged, and the record is
still appended to the log. -/
theorem degraded_record_logged {σ : Type} (B : I2c σ)
    (w1 w2 : Option (List Char)) (log : List SensorData) (md : MS5611Data)
    (v : Rat) (e1 e2 : String)
    (hmd : read_and_calculate_ms5611 B = some md) :
    (read_temperature_ds18b20 w1 = .error e1 →
      read_temperature_ds18b20 w2 = .ok v →
      mainCycle B w1 w2 log =
        log ++ [{ ms5611 := md, ds18b20_1 := 0, ds18b20_2 := v }]) ∧
    (read_temperature_ds18b20 w1 = .ok v →
      read_temperature_ds18b20 w2 = .error e2 →
      mainCycle B w1 w2 log =
        log ++ [{ ms5611 := md, ds18b20_1 := v, ds18b20_2 := 0 }]) := by
  constructor <;> intro ha hb <;> unfold mainCycle <;> rw [hmd, ha, hb]

/-- Canonical successful w1_slave report text. -/
def reportOk : List Char :=
  ['Y', 'E', 'S', '\n', 't', '=', '2', '3', '4', '5', '6', '\n']

/-- Witness for C5: first thermometer fails, second succeeds, the record is
logged with 0.0 in the first slot. -/
theorem degraded_record_logged_witness :
    mainCycle busOk none (some reportOk) [] =
      [{ ms5611 := ms5611_data_of 460551 460551 1799 1799 1799 1799 1799 1799,
         ds18b20_1 := 0, ds18b20_2 := 23456 / 1000 }] :=
  (degraded_record_logged busOk none (some reportOk) []
    (ms5611_data_of 460551 460551 1799 1799 1799 1799 1799 1799)
    (23456 / 1000) "file open" "file open" rfl).1 rfl (by
      show read_temperature_ds18b20 (some reportOk) = Except.ok (23456 / 1000)
      have h : ((1 : Rat) * 23456) / 1000 = 23456 / 1000 := by norm_num
      rw [show read_temperature_ds18b20 (some reportOk) =
        Except.ok (((1 : Rat) * 23456) / 1000) from rfl, h])

/-- A pattern occurring at the head of a list is no longer than the list. -/
theorem isPrefixList_length {p l : List Char} (h : isPrefixList p l = true) :
    p.length ≤ l.length := by
  induction p generalizing l with
  | nil => simp
  | cons a ps ih =>
    cases l with
    | nil => simp [isPrefixList] at h
    | cons b ls =>
      simp only [isPrefixList, Bool.and_eq_true] at h
      have hl := ih h.2
      simp only [List.length_cons]
      omega

/-- An occurrence index returned by findSub leaves room for the pattern
inside the text. -/
theorem findSub_le {c p : List Char} {i : Nat} (h : findSub c p = some i) :
    i + p.length ≤ c.length := by
  induction c generalizing i with
  | nil =>
    unfold findSub at h
    by_cases hp : p.isEmpty
    · rw [if_pos hp] at h
      injection h with h
      subst h
      simp [List.isEmpty_iff.mp hp]
    · rw [if_neg hp] at h
      exact absurd h (by simp)
  | cons a t ih =>
    unfold findSub at h
    by_cases hpre : isPrefixList p (a :: t) = true
    · rw [if_pos hpre] at h
      injection h with h
      subst h
      simpa using isPrefixList_length hpre
    · rw [if_neg hpre] at h
      cases hf : findSub t p with
      | none => rw [hf] at h; simp at h
      | some j =>
        rw [hf] at h
        simp only [Option.map_some'] at h
        injection h with h
        subst h
        have hj := ih hf
        simp only [List.length_cons]
        omega

/-- C6: read_temperature_ds18b20 fails on every report not containing YES,
fails on every report containing YES but no t= marker, and on the canonical
report containing YES and t=23456 succeeds with 23.456 degrees C. -/
theorem thermometer_parse_contract :
    (∀ c : List Char, containsSub c ['Y', 'E', 'S'] = false →
      ∃ e, read_temperature_ds18b20 (some c) = .error e) ∧
    (∀ c : List Char, containsSub c ['Y', 'E', 'S'] = true →
      containsSub c ['t', '='] = false →
      ∃ e, read_temperature_ds18b20 (some c) = .error e) ∧
    read_temperature_ds18b20 (some reportOk) = .ok (23.456 : Rat) := by
  refine ⟨?_, ?_, ?_⟩
  · intro c h
    refine ⟨"Errore nella lettura del DS18B20", ?_⟩
    simp [read_temperature_ds18b20, h]
  · intro c h1 h2
    have hn : findSub c ['t', '='] = none := by
      unfold containsSub at h2
      cases hf : findSub c ['t', '='] with
      | none => rfl
      | some p => rw [hf] at h2; simp at h2
    refine ⟨"Valore t= non trovato", ?_⟩
    simp [read_temperature_ds18b20, h1, hn]
  · show read_temperature_ds18b20 (some reportOk) = _
    have h : ((1 : Rat) * 23456) / 1000 = (23.456 : Rat) := by norm_num
    rw [show read_temperature_ds18b20 (some reportOk) =
      Except.ok (((1 : Rat) * 23456) / 1000) from rfl, h]

/-- Witness for C6 on concrete failing reports. -/
theorem thermometer_parse_contract_witness :
    (∃ e, read_temperature_ds18b20 (some ['N', 'O']) = .error e) ∧
    (∃ e, read_temperature_ds18b20 (some ['Y', 'E', 'S', '\n']) = .error e) :=
  ⟨thermometer_parse_contract.1 ['N', 'O'] (by decide),
   thermometer_parse_contract.2.1 ['Y', 'E', 'S', '\n'] (by decide) (by decide)⟩

/-- C10: whenever the report contains both YES and t=, the suffix taken at
the t= position plus 2 is in bounds; the function accepts any trimmed suffix
the float grammar parses, including negative and fractional values, e.g.
t=-1250 yields -1.25. -/
theorem slice_in_bounds_float_parse :
    (∀ (c : List Char) (p : Nat), findSub c ['t', '='] = some p →
      p + 2 ≤ c.length) ∧
    (∀ (c : List Char) (p : Nat) (v : Rat),
      containsSub c ['Y', 'E', 'S'] = true →
      findSub c ['t', '='] = some p →
      parseF32 (trimList (c.drop (p + 2))) = some v →
      read_temperature_ds18b20 (some c) = .ok (v / 1000)) ∧
    read_temperature_ds18b20
      (some ['Y', 'E', 'S', ' ', 't', '=', '-', '1', '2', '5', '0', '\n']) =
      .ok (-1.25 : Rat) := by
  refine ⟨?_, ?_, ?_⟩
  · intro c p h
    have := findSub_le h
    simpa using this
  · intro c p v h1 h2 h3
    simp [read_temperature_ds18b20, h1, h2, h3]
  · show read_temperature_ds18b20 _ = _
    have h : ((-1 : Rat) * 1250) / 1000 = (-1.25 : Rat) := by norm_num
    rw [show read_temperature_ds18b20
      (some ['Y', 'E', 'S', ' ', 't', '=', '-', '1', '2', '5', '0', '\n']) =
      Except.ok (((-1 : Rat) * 1250) / 1000) from rfl, h]

/-- Witness for C10 on the canonical report. -/
theorem slice_in_bounds_float_parse_witness :
    4 + 2 ≤ reportOk.length ∧
    read_temperature_ds18b20 (some reportOk) =
      .ok (((1 : Rat) * ((23456 : Nat) : Rat)) / 1000) :=
  ⟨slice_in_bounds_float_parse.1 reportOk 4 (by decide),
   slice_in_bounds_float_parse.2.1 reportOk 4 ((1 : Rat) * ((23456 : Nat) : Rat))
     (by decide) (by decide) rfl⟩

end RustSensors
